import Mathlib

/-!
Verification of the Entity Schema Registry and Validation Layer of the
BUHOU-Graphiti-MCP repository.

The repository's source (src/mcp_server/src/models/bu_housing_entity_types.py)
declares fourteen pydantic entity shapes and the registry dictionary
`BU_HOUSING_ENTITY_TYPES`.  Each pydantic class is embedded below as a
`SchemaDefinition`: a field is `required` exactly when the source declares it
with `Field(...)` (ellipsis default), and optional when declared
`T | None = Field(None, ...)`; the `value_kind` is `text` for `str`,
`integer` for `int`, `boolean` for `bool`.

The spec additionally describes operations that are not present in the
source file (the validation-rule engine, the catalog lookup/builder, and the
hierarchy-legality table); those are modelled from the spec, each marked
`Modelled from the spec:` in its doc comment.
-/

namespace BUHousing

/-- A runtime value of a candidate record field (JSON-scalar shaped, as
produced by the extraction engine and consumed by pydantic decoding). -/
inductive Value where
  | vStr : String → Value
  | vInt : Int → Value
  | vBool : Bool → Value
  | vNull : Value
deriving DecidableEq

/-- The semantic kind of a field, per the spec's FieldSpec `value_kind`
(text, integer, boolean, bounded-integer, closed-enumeration-of-text).
The source's pydantic classes only use `text`, `integer` and `boolean`. -/
inductive ValueKind where
  | text : ValueKind
  | integer : ValueKind
  | boolean : ValueKind
  | boundedInt : Int → Option Int → ValueKind
  | closedEnum : List String → ValueKind
deriving DecidableEq

/-- One field of an entity shape: name, value kind, requiredness, default.
In the source a required field is `Field(...)` (no default) and an optional
field is `Field(None, ...)` (default null). -/
structure FieldSpec where
  name : String
  kind : ValueKind
  required : Bool
  default : Option Value
deriving DecidableEq

/-- A required `str` field of the source (`str = Field(...)`). -/
def reqText (n : String) : FieldSpec := ⟨n, .text, true, none⟩

/-- An optional `str` field of the source (`str | None = Field(None, ...)`). -/
def optText (n : String) : FieldSpec := ⟨n, .text, false, some .vNull⟩

/-- An optional `int` field of the source (`int | None = Field(None, ...)`). -/
def optInt (n : String) : FieldSpec := ⟨n, .integer, false, some .vNull⟩

/-- An optional `bool` field of the source (`bool | None = Field(None, ...)`). -/
def optBool (n : String) : FieldSpec := ⟨n, .boolean, false, some .vNull⟩

/-- Modelled from the spec: the repository's source contains no
ValidationRule engine, only the plain pydantic field declarations; the spec
requires exactly two rule families, *discriminated requirement* (a
discriminant field's value selects otherwise-optional fields that become
required) and *categorical consistency* (a capacity-like field is only legal,
and validated against a minimum, when a kind-like field is in a designated
residential subset; otherwise it must be absent). -/
inductive ValidationRule where
  | discriminatedRequirement :
      (ruleId : String) → (discField : String) →
      (branches : List (String × List String)) → ValidationRule
  | categoricalConsistency :
      (ruleId : String) → (kindField : String) →
      (residentialKinds : List String) → (capField : String) →
      (minVal : Int) → ValidationRule
deriving DecidableEq

/-- The stable identifier of a validation rule (used in failure diagnostics). -/
def ruleIdOf : ValidationRule → String
  | .discriminatedRequirement i _ _ => i
  | .categoricalConsistency i _ _ _ _ => i

/-- One entity shape of the registry: type name, ordered field list, rules. -/
structure SchemaDefinition where
  typeName : String
  fields : List FieldSpec
  rules : List ValidationRule
deriving DecidableEq

/-- A candidate record as submitted by the extraction engine: an association
list from field name to value (a missing key is an omitted field; an
explicit `vNull` is a null). -/
abbrev Record := List (String × Value)

/-- Look a field up in a candidate record (first binding wins). -/
def lookupField (r : Record) (n : String) : Option Value :=
  (r.find? (fun p => p.1 == n)).map Prod.snd

/-- A field is *present* when it is bound to a non-null value. -/
def hasValue (r : Record) (n : String) : Bool :=
  match lookupField r n with
  | some v => v != Value.vNull
  | none => false

/-- Does a value inhabit a value kind?  Mirrors pydantic's per-field type
check on the source's `str` / `int` / `bool` annotations, extended to the
spec's bounded-integer and closed-enumeration kinds. -/
def kindMatches : ValueKind → Value → Bool
  | .text, .vStr _ => true
  | .integer, .vInt _ => true
  | .boolean, .vBool _ => true
  | .boundedInt lo hi, .vInt n =>
      decide (lo ≤ n) && (match hi with | some h => decide (n ≤ h) | none => true)
  | .closedEnum vals, .vStr s => vals.contains s
  | _, _ => false

/-- Structural decoding failure: the candidate record does not fit the
field declarations (the spec's `StructuralError`). -/
inductive StructuralError where
  | missingRequired : String → StructuralError
  | nullRequired : String → StructuralError
  | typeMismatch : String → StructuralError
deriving DecidableEq

/-- Decode one field of a candidate record against its FieldSpec: a missing
or null binding fails when the field is required (pydantic `Field(...)`),
an optional field falls back to its default, and a bound value must match
the declared kind. -/
def decodeField (r : Record) (f : FieldSpec) : Except StructuralError Value :=
  match lookupField r f.name with
  | none =>
      if f.required then .error (.missingRequired f.name)
      else .ok (f.default.getD .vNull)
  | some .vNull =>
      if f.required then .error (.nullRequired f.name)
      else .ok .vNull
  | some v =>
      if kindMatches f.kind v then .ok v else .error (.typeMismatch f.name)

/-- Decode a candidate record against an ordered field list, failing on the
first structurally bad field. -/
def decodeFields (r : Record) : List FieldSpec → Except StructuralError Record
  | [] => .ok []
  | f :: fs =>
      match decodeField r f with
      | .error e => .error e
      | .ok v =>
          match decodeFields r fs with
          | .error e => .error e
          | .ok vs => .ok ((f.name, v) :: vs)

/-- Decode a candidate record against a SchemaDefinition (structural phase:
requiredness and value kinds, strictly before rule evaluation). -/
def decode (d : SchemaDefinition) (r : Record) : Except StructuralError Record :=
  decodeFields r d.fields

/-- Modelled from the spec: evaluation of one validation rule on a decoded
candidate record, returning `some reason` on failure.  Per the spec's
edge-case policy, a discriminated-requirement rule fails when its
discriminant field is absent or null (conservative rejection); a
discriminant value with no declared branch passes.  A categorical
consistency rule requires the capacity-like field to be absent unless the
kind-like field holds a designated residential kind, in which case the
capacity must be an integer at or above the declared minimum. -/
def evalRule (r : Record) : ValidationRule → Option String
  | .discriminatedRequirement _ disc branches =>
      match lookupField r disc with
      | none => some ("discriminant " ++ disc ++ " is absent")
      | some .vNull => some ("discriminant " ++ disc ++ " is null")
      | some (.vStr v) =>
          match branches.find? (fun b => b.1 == v) with
          | none => none
          | some b =>
              match b.2.find? (fun n => !(hasValue r n)) with
              | none => none
              | some missing =>
                  some (missing ++ " is required when " ++ disc ++ " is " ++ v)
      | some _ => some ("discriminant " ++ disc ++ " is not text")
  | .categoricalConsistency _ kindField residentialKinds capField minVal =>
      let isResidential :=
        match lookupField r kindField with
        | some (.vStr k) => residentialKinds.contains k
        | _ => false
      match lookupField r capField with
      | none => none
      | some .vNull => none
      | some (.vInt n) =>
          if isResidential then
            if minVal ≤ n then none
            else some (capField ++ " is below the declared minimum")
          else some (capField ++ " must be absent for this " ++ kindField)
      | some _ => some (capField ++ " must be an integer")

/-- Modelled from the spec: `validate(record, definition)` runs every rule
of the definition against the decoded record and returns the ordered list
of `(rule_id, reason)` failures (success is the empty list); ordering is by
rule declaration order. -/
def validate (d : SchemaDefinition) (r : Record) : List (String × String) :=
  d.rules.filterMap
    (fun rule => (evalRule r rule).map (fun reason => (ruleIdOf rule, reason)))

/-- Modelled from the spec: the discriminated-requirement rule of the Role
shape.  The source declares the Role pydantic class (its docstring:
employees carry a job title and a department; students carry a role in
housing) but no executable rule; per the spec, discriminant
`affiliation_type` with value `"employee"` requires `job_title` and
`department`, and value `"student"` requires the student-role field, taken
to be the Role shape's `responsibilities` field (the shape's only field for
the role's scope, the source having no dedicated housing-role field). -/
def roleDiscRule : ValidationRule :=
  .discriminatedRequirement "RoleDiscriminatedRequirement" "affiliation_type"
    [("employee", ["job_title", "department"]),
     ("student", ["responsibilities"])]

/-- The `Role` shape (source lines 33-78): affiliation_type required text;
job_title, department, responsibilities, assigned_location, role_status
optional text. -/
def roleDef : SchemaDefinition :=
  { typeName := "Role"
    fields :=
      [ reqText "affiliation_type"
      , optText "job_title"
      , optText "department"
      , optText "responsibilities"
      , optText "assigned_location"
      , optText "role_status" ]
    rules := [roleDiscRule] }

/-- The `LocationArea` shape (source lines 81-119): name required text; the
rest optional text. -/
def locationAreaDef : SchemaDefinition :=
  { typeName := "LocationArea"
    fields :=
      [ reqText "name"
      , optText "campus_location"
      , optText "description"
      , optText "area_amenities"
      , optText "special_designation" ]
    rules := [] }

/-- Modelled from the spec: the categorical-consistency rule of the
Facility (building) shape.  The source declares the Facility pydantic
class with an optional integer `total_capacity` and an optional text
`building_type` but no executable rule; per the spec, the capacity field is
only legal — and validated as non-negative — when the kind field is in the
designated residential subset (the residence-hall kinds; the source's
building_type examples are traditional dorm, apartment-style, brownstone,
tower), and must be absent otherwise (e.g. for an academic building). -/
def facilityCapacityRule : ValidationRule :=
  .categoricalConsistency "FacilityCapacityConsistency" "building_type"
    ["residence_hall", "traditional dorm", "apartment-style", "brownstone", "tower"]
    "total_capacity" 0

/-- The `Facility` shape (source lines 122-181): name required text;
total_capacity and number_of_floors optional int; the rest optional text. -/
def facilityDef : SchemaDefinition :=
  { typeName := "Facility"
    fields :=
      [ reqText "name"
      , optText "street_address"
      , optText "location_area"
      , optText "building_type"
      , optInt "total_capacity"
      , optInt "number_of_floors"
      , optText "building_amenities"
      , optText "accessibility_features"
      , optText "special_designation"
      , optText "year_built" ]
    rules := [facilityCapacityRule] }

/-- The `FloorOrSuite` shape (source lines 184-235): identifier and
building_name required text; floor_number and number_of_rooms optional int;
the rest optional text. -/
def floorOrSuiteDef : SchemaDefinition :=
  { typeName := "FloorOrSuite"
    fields :=
      [ reqText "identifier"
      , reqText "building_name"
      , optInt "floor_number"
      , optText "subdivision_type"
      , optInt "number_of_rooms"
      , optText "shared_spaces"
      , optText "floor_amenities"
      , optText "special_designation" ]
    rules := [] }

/-- The `Room` shape (source lines 238-293): room_number, floor_or_suite and
building_name required text; capacity and square_footage optional int; the
rest optional text. -/
def roomDef : SchemaDefinition :=
  { typeName := "Room"
    fields :=
      [ reqText "room_number"
      , reqText "floor_or_suite"
      , reqText "building_name"
      , optText "room_type"
      , optInt "capacity"
      , optInt "square_footage"
      , optText "room_features"
      , optText "furniture_provided"
      , optText "accessibility_features" ]
    rules := [] }

/-- The `RoomSpace` shape (source lines 296-350): space_identifier,
room_number, floor_or_suite and building_name required text; the rest
optional text. -/
def roomSpaceDef : SchemaDefinition :=
  { typeName := "RoomSpace"
    fields :=
      [ reqText "space_identifier"
      , reqText "room_number"
      , reqText "floor_or_suite"
      , reqText "building_name"
      , optText "space_type"
      , optText "space_features"
      , optText "furniture_items"
      , optText "accessibility_accommodations"
      , optText "space_status" ]
    rules := [] }

/-- The `Agreement` shape (source lines 353-398): contract_type required
text; the rest optional text. -/
def agreementDef : SchemaDefinition :=
  { typeName := "Agreement"
    fields :=
      [ optText "contract_id"
      , reqText "contract_type"
      , optText "start_date"
      , optText "end_date"
      , optText "payment_amount"
      , optText "terms"
      , optText "status" ]
    rules := [] }

/-- The `ServiceRequest` shape (source lines 401-446): issue_type,
description and location required text; the rest optional text. -/
def serviceRequestDef : SchemaDefinition :=
  { typeName := "ServiceRequest"
    fields :=
      [ optText "request_id"
      , reqText "issue_type"
      , reqText "description"
      , optText "priority"
      , reqText "location"
      , optText "status"
      , optText "submitted_date" ]
    rules := [] }

/-- The `AmenityFacility` shape (source lines 449-486): name, amenity_type
and location required text; the rest optional text. -/
def amenityFacilityDef : SchemaDefinition :=
  { typeName := "AmenityFacility"
    fields :=
      [ reqText "name"
      , reqText "amenity_type"
      , reqText "location"
      , optText "access_details"
      , optText "features" ]
    rules := [] }

/-- The `Assignment` shape (source lines 489-536): role_type, unit_number,
building_name and assignment_period required text; the rest optional text. -/
def assignmentDef : SchemaDefinition :=
  { typeName := "Assignment"
    fields :=
      [ reqText "role_type"
      , reqText "unit_number"
      , reqText "building_name"
      , reqText "assignment_period"
      , optText "move_in_date"
      , optText "move_out_date"
      , optText "status" ]
    rules := [] }

/-- The `Policy` shape (source lines 539-576): policy_name, category and
description required text; the rest optional text. -/
def policyDef : SchemaDefinition :=
  { typeName := "Policy"
    fields :=
      [ reqText "policy_name"
      , reqText "category"
      , reqText "description"
      , optText "applies_to"
      , optText "consequences" ]
    rules := [] }

/-- The `Application` shape (source lines 579-630): application_type
required text; the rest optional text. -/
def applicationDef : SchemaDefinition :=
  { typeName := "Application"
    fields :=
      [ reqText "application_type"
      , optText "applicant_role"
      , optText "preferences"
      , optText "accommodation_needs"
      , optText "roommate_criteria"
      , optText "status"
      , optText "submission_date"
      , optText "lottery_number" ]
    rules := [] }

/-- The `Event` shape (source lines 633-674): event_name, event_type,
location and description required text; date optional text; mandatory
optional bool. -/
def eventDef : SchemaDefinition :=
  { typeName := "Event"
    fields :=
      [ reqText "event_name"
      , reqText "event_type"
      , optText "date"
      , reqText "location"
      , reqText "description"
      , optBool "mandatory" ]
    rules := [] }

/-- The `FinancialTransaction` shape (source lines 677-728): amount and
transaction_type required text; the rest optional text. -/
def financialTransactionDef : SchemaDefinition :=
  { typeName := "FinancialTransaction"
    fields :=
      [ optText "transaction_id"
      , reqText "amount"
      , reqText "transaction_type"
      , optText "associated_unit"
      , optText "due_date"
      , optText "transaction_date"
      , optText "payment_method_type"
      , optText "status" ]
    rules := [] }

/-- The registry of all BU Housing entity types, in the source's
declaration order (source lines 733-755,
`BU_HOUSING_ENTITY_TYPES: dict[str, type[BaseModel]]`). -/
def BU_HOUSING_ENTITY_TYPES : List (String × SchemaDefinition) :=
  [ ("Role", roleDef)
  , ("LocationArea", locationAreaDef)
  , ("Facility", facilityDef)
  , ("FloorOrSuite", floorOrSuiteDef)
  , ("Room", roomDef)
  , ("RoomSpace", roomSpaceDef)
  , ("AmenityFacility", amenityFacilityDef)
  , ("Agreement", agreementDef)
  , ("ServiceRequest", serviceRequestDef)
  , ("Assignment", assignmentDef)
  , ("Policy", policyDef)
  , ("Application", applicationDef)
  , ("Event", eventDef)
  , ("FinancialTransaction", financialTransactionDef) ]

/-- Failure of a registry lookup (the spec's `UnknownType`). -/
inductive LookupError where
  | unknownType : LookupError
deriving DecidableEq

/-- Modelled from the spec: the source exposes the registry only as the
`BU_HOUSING_ENTITY_TYPES` dictionary; `lookup(type_name)` returns the
SchemaDefinition registered under the name, or fails with `UnknownType`
when the name is absent. -/
def lookup (t : String) : Except LookupError SchemaDefinition :=
  match BU_HOUSING_ENTITY_TYPES.find? (fun p => p.1 == t) with
  | some p => .ok p.2
  | none => .error .unknownType

/-- Is a value kind well formed at registry build time?  Per the spec, a
bounded-integer kind declares a minimum ≤ any declared maximum, and a
closed-enumeration kind declares at least one legal value. -/
def validKind : ValueKind → Bool
  | .boundedInt lo (some hi) => decide (lo ≤ hi)
  | .closedEnum vals => !vals.isEmpty
  | _ => true

/-- Is a field well formed at registry build time?  Per the spec, a
required field has no default, and its kind is well formed. -/
def validField (f : FieldSpec) : Bool :=
  validKind f.kind && (!f.required || f.default.isNone)

/-- Is a SchemaDefinition well formed at registry build time?  Per the
spec: field names unique within the shape, and every field well formed. -/
def validSchema (d : SchemaDefinition) : Bool :=
  decide ((d.fields.map FieldSpec.name).Nodup) && d.fields.all validField

/-- Fatal build-time failure (the spec's `InvalidSchema`), naming the
offending shape. -/
inductive CatalogError where
  | invalidSchema : String → CatalogError
deriving DecidableEq

/-- Modelled from the spec: catalog construction from a batch of
SchemaDefinitions; if any one definition is invalid the whole build fails
with `InvalidSchema` and no partial catalog is produced. -/
def buildCatalog (defs : List SchemaDefinition) :
    Except CatalogError (List (String × SchemaDefinition)) :=
  match defs.find? (fun d => !(validSchema d)) with
  | some d => .error (.invalidSchema d.typeName)
  | none => .ok (defs.map (fun d => (d.typeName, d)))

/-- The edge kinds of the hierarchy convention (spec §3, HierarchyEdge). -/
inductive EdgeKind where
  | CONTAINS : EdgeKind
  | LOCATED_IN : EdgeKind
  | PART_OF : EdgeKind
  | PRECEDES : EdgeKind
  | ASSIGNED_TO : EdgeKind
  | LOCATED_AT : EdgeKind
  | OCCURS_DURING : EdgeKind
deriving DecidableEq

/-- The adjacent (parent, child) pairs of the five-level spatial hierarchy
declared by the source (module docstring line 23 and registry comments:
Location Area → Building → Floor/Suite → Room → Room Space, i.e. the
registered type names LocationArea → Facility → FloorOrSuite → Room →
RoomSpace). -/
def containsPairs : List (String × String) :=
  [ ("LocationArea", "Facility")
  , ("Facility", "FloorOrSuite")
  , ("FloorOrSuite", "Room")
  , ("Room", "RoomSpace") ]

/-- Modelled from the spec: `is_legal_edge(parent_type, child_type,
edge_kind)` is a pure lookup against the fixed table derived from the
five-level spatial hierarchy — `CONTAINS` is legal exactly from
area→building, building→floor-or-suite, floor-or-suite→room and
room→bed-space; this catalog version registers no temporal term types, so
no other edge kind has a legal pair in the table. -/
def is_legal_edge (parent child : String) (k : EdgeKind) : Bool :=
  match k with
  | .CONTAINS => containsPairs.contains (parent, child)
  | _ => false

/-- Is a value kind a closed enumeration of text? -/
def isClosedEnum : ValueKind → Bool
  | .closedEnum _ => true
  | _ => false

/-- A deliberately malformed shape (its closed-enumeration field declares no
legal value), used to exercise the atomicity of catalog construction. -/
def badSchemaExample : SchemaDefinition :=
  { typeName := "Bad"
    fields := [⟨"f", .closedEnum [], true, none⟩]
    rules := [] }

end BUHousing

deriving instance DecidableEq for Except

namespace BUHousing

theorem decodeField_error_of_required_absent {r : Record} {f : FieldSpec}
    (hreq : f.required = true) (habs : lookupField r f.name = none) :
    decodeField r f = Except.error (StructuralError.missingRequired f.name) := by
  simp [decodeField, habs, hreq]

theorem decodeFields_not_ok_of_required_absent {r : Record} {f : FieldSpec}
    (hreq : f.required = true) (habs : lookupField r f.name = none) :
    ∀ {fs : List FieldSpec}, f ∈ fs → (decodeFields r fs).isOk = false := by
  intro fs hmem
  induction fs with
  | nil => cases hmem
  | cons g gs ih =>
    rcases List.mem_cons.mp hmem with heq | hmem2
    · subst heq
      simp [decodeFields, decodeField_error_of_required_absent hreq habs, Except.isOk, Except.toBool]
    · cases hg : decodeField r g with
      | error e => simp [decodeFields, hg, Except.isOk, Except.toBool]
      | ok v =>
        have h2 := ih hmem2
        cases hgs : decodeFields r gs with
        | error e => simp [decodeFields, hg, hgs, Except.isOk, Except.toBool]
        | ok vs => rw [hgs] at h2; simp [Except.isOk, Except.toBool] at h2

theorem decodeField_ok_of_matching {r : Record} {f : FieldSpec} {v : Value}
    (hv : lookupField r f.name = some v) (hk : kindMatches f.kind v = true) :
    decodeField r f = Except.ok v := by
  cases v with
  | vNull => cases f.kind <;> simp [kindMatches] at hk
  | vStr s => simp [decodeField, hv, hk]
  | vInt n => simp [decodeField, hv, hk]
  | vBool b => simp [decodeField, hv, hk]

end BUHousing
namespace BUHousing

/-- C3: for every registered entity type and every field of it marked
required, decoding a candidate record that omits that field fails with a
StructuralError, and decoding a candidate record that supplies that field
with a value of the field's declared value kind never fails structurally on
that field. -/
theorem registry_required_fields :
    ∀ td ∈ BU_HOUSING_ENTITY_TYPES, ∀ f ∈ td.2.fields, f.required = true →
      (∀ r : Record, lookupField r f.name = none →
        (decode td.2 r).isOk = false) ∧
      (∀ (r : Record) (v : Value), lookupField r f.name = some v →
        kindMatches f.kind v = true → decodeField r f = Except.ok v) := by
  intro td _ f hf hreq
  exact ⟨fun r habs => decodeFields_not_ok_of_required_absent hreq habs hf,
         fun r v hv hk => decodeField_ok_of_matching hv hk⟩

theorem registry_required_fields_witness :
    (decode roleDef []).isOk = false ∧
    decodeField [("affiliation_type", Value.vStr "faculty")]
      (reqText "affiliation_type") = Except.ok (Value.vStr "faculty") := by
  have h := registry_required_fields ("Role", roleDef) (by decide)
    (reqText "affiliation_type") (by decide) rfl
  exact ⟨h.1 [] rfl,
    h.2 [("affiliation_type", Value.vStr "faculty")] (Value.vStr "faculty")
      (by decide) rfl⟩

/-- C9: the spatial shapes at hierarchy levels 3-5 require their scalar
ancestor-chain fields: a FloorOrSuite record cannot decode without
building_name; a Room record cannot decode without floor_or_suite or
without building_name; a RoomSpace record cannot decode without
room_number, floor_or_suite or building_name. -/
theorem spatial_parent_fields_required :
    (∀ r : Record, lookupField r "building_name" = none →
      (decode floorOrSuiteDef r).isOk = false) ∧
    (∀ r : Record,
      lookupField r "floor_or_suite" = none ∨ lookupField r "building_name" = none →
      (decode roomDef r).isOk = false) ∧
    (∀ r : Record,
      lookupField r "room_number" = none ∨ lookupField r "floor_or_suite" = none ∨
        lookupField r "building_name" = none →
      (decode roomSpaceDef r).isOk = false) := by
  refine ⟨fun r h => ?_, fun r h => ?_, fun r h => ?_⟩
  · exact decodeFields_not_ok_of_required_absent (f := reqText "building_name")
      rfl h (by decide)
  · rcases h with h | h
    · exact decodeFields_not_ok_of_required_absent (f := reqText "floor_or_suite")
        rfl h (by decide)
    · exact decodeFields_not_ok_of_required_absent (f := reqText "building_name")
        rfl h (by decide)
  · rcases h with h | h | h
    · exact decodeFields_not_ok_of_required_absent (f := reqText "room_number")
        rfl h (by decide)
    · exact decodeFields_not_ok_of_required_absent (f := reqText "floor_or_suite")
        rfl h (by decide)
    · exact decodeFields_not_ok_of_required_absent (f := reqText "building_name")
        rfl h (by decide)

theorem spatial_parent_fields_required_witness :
    (decode floorOrSuiteDef [("identifier", Value.vStr "Floor 3")]).isOk = false ∧
    (decode roomDef [("room_number", Value.vStr "101")]).isOk = false ∧
    (decode roomSpaceDef [("space_identifier", Value.vStr "101A")]).isOk = false :=
  ⟨spatial_parent_fields_required.1 [("identifier", Value.vStr "Floor 3")] (by decide),
   spatial_parent_fields_required.2.1 [("room_number", Value.vStr "101")] (Or.inl (by decide)),
   spatial_parent_fields_required.2.2 [("space_identifier", Value.vStr "101A")] (Or.inl (by decide))⟩

/-- C4: for every registered type name, lookup succeeds and returns a
definition with a non-empty field list of pairwise-unique field names; for
every unregistered name, lookup fails with UnknownType. -/
theorem registry_lookup_contract :
    (∀ td ∈ BU_HOUSING_ENTITY_TYPES,
      lookup td.1 = Except.ok td.2 ∧ td.2.fields ≠ [] ∧
        (td.2.fields.map FieldSpec.name).Nodup) ∧
    (∀ t : String, t ∉ BU_HOUSING_ENTITY_TYPES.map Prod.fst →
      lookup t = Except.error LookupError.unknownType) := by
  constructor
  · decide
  · intro t ht
    have hnone : BU_HOUSING_ENTITY_TYPES.find? (fun p => p.1 == t) = none := by
      rw [List.find?_eq_none]
      intro x hx hbeq
      refine ht ?_
      have hx1 : x.1 = t := by simpa using hbeq
      exact hx1 ▸ List.mem_map_of_mem Prod.fst hx
    simp [lookup, hnone]

theorem registry_lookup_contract_witness :
    (lookup "Role" = Except.ok roleDef ∧ roleDef.fields ≠ [] ∧
      (roleDef.fields.map FieldSpec.name).Nodup) ∧
    lookup "DiningHall" = Except.error LookupError.unknownType :=
  ⟨registry_lookup_contract.1 ("Role", roleDef) (by decide),
   registry_lookup_contract.2 "DiningHall" (by decide)⟩

/-- C6: catalog construction is atomic — a batch containing at least one
invalid SchemaDefinition makes the whole build fail with InvalidSchema, and
no partial catalog ever becomes queryable. -/
theorem catalog_build_atomic :
    ∀ (defs : List SchemaDefinition) (d : SchemaDefinition),
      d ∈ defs → validSchema d = false →
      (buildCatalog defs).isOk = false ∧
      ∀ c, buildCatalog defs ≠ Except.ok c := by
  intro defs d hd hbad
  have hsome : (defs.find? (fun d => !(validSchema d))).isSome := by
    rw [List.find?_isSome]
    exact ⟨d, hd, by simp [hbad]⟩
  obtain ⟨x, hx⟩ := Option.isSome_iff_exists.mp hsome
  constructor
  · simp [buildCatalog, hx, Except.isOk, Except.toBool]
  · intro c hc
    simp [buildCatalog, hx] at hc

theorem catalog_build_atomic_witness :
    (buildCatalog [badSchemaExample, roleDef]).isOk = false :=
  (catalog_build_atomic [badSchemaExample, roleDef] badSchemaExample
    (by decide) (by decide)).1

theorem validate_ids_sublist (rules : List ValidationRule) (r : Record) :
    List.Sublist
      ((rules.filterMap
        (fun rule => (evalRule r rule).map (fun reason => (ruleIdOf rule, reason)))).map
          Prod.fst)
      (rules.map ruleIdOf) := by
  induction rules with
  | nil => simp
  | cons rule rest ih =>
    cases h : evalRule r rule with
    | none =>
      simp only [List.filterMap_cons, h, Option.map_none, List.map_cons]
      exact List.Sublist.cons _ ih
    | some reason =>
      simp only [List.filterMap_cons, h, Option.map_some, List.map_cons]
      exact List.Sublist.cons₂ _ ih

/-- C7: validation is idempotent and deterministic — validate applied twice
to the identical record yields identical results, and the failure list is
ordered by rule declaration order (its rule ids form a subsequence of the
definition's declared rule ids). -/
theorem validate_deterministic_ordered :
    ∀ (d : SchemaDefinition) (r : Record),
      validate d r = validate d r ∧
      List.Sublist ((validate d r).map Prod.fst) (d.rules.map ruleIdOf) :=
  fun d r => ⟨rfl, validate_ids_sublist d.rules r⟩

end BUHousing
namespace BUHousing

/-- C1: discriminated requirement on the Role shape — with discriminant
affiliation_type = "employee" and job title absent, validate fails citing
the rule; with both job title and department present it succeeds; with
discriminant "student" and the student-role field absent it fails; with a
student-role value present it succeeds. -/
theorem role_discriminated_requirement :
    (∀ r : Record,
      lookupField r "affiliation_type" = some (Value.vStr "employee") →
      hasValue r "job_title" = false →
      (validate roleDef r).map Prod.fst = ["RoleDiscriminatedRequirement"]) ∧
    (∀ r : Record,
      lookupField r "affiliation_type" = some (Value.vStr "employee") →
      hasValue r "job_title" = true → hasValue r "department" = true →
      validate roleDef r = []) ∧
    (∀ r : Record,
      lookupField r "affiliation_type" = some (Value.vStr "student") →
      hasValue r "responsibilities" = false →
      (validate roleDef r).map Prod.fst = ["RoleDiscriminatedRequirement"]) ∧
    (∀ r : Record,
      lookupField r "affiliation_type" = some (Value.vStr "student") →
      hasValue r "responsibilities" = true →
      validate roleDef r = []) := by
  refine ⟨fun r h1 h2 => ?_, fun r h1 h2 h3 => ?_, fun r h1 h2 => ?_, fun r h1 h2 => ?_⟩
  · simp [validate, roleDef, roleDiscRule, evalRule, ruleIdOf, h1, h2]
  · simp [validate, roleDef, roleDiscRule, evalRule, ruleIdOf, h1, h2, h3]
  · simp [validate, roleDef, roleDiscRule, evalRule, ruleIdOf, h1, h2]
  · simp [validate, roleDef, roleDiscRule, evalRule, ruleIdOf, h1, h2]

theorem role_discriminated_requirement_witness :
    (validate roleDef [("affiliation_type", Value.vStr "employee")]).map Prod.fst
      = ["RoleDiscriminatedRequirement"] ∧
    validate roleDef
      [("affiliation_type", Value.vStr "employee"),
       ("job_title", Value.vStr "RA"),
       ("department", Value.vStr "Residential Life")] = [] ∧
    (validate roleDef [("affiliation_type", Value.vStr "student")]).map Prod.fst
      = ["RoleDiscriminatedRequirement"] ∧
    validate roleDef
      [("affiliation_type", Value.vStr "student"),
       ("responsibilities", Value.vStr "resident")] = [] :=
  ⟨role_discriminated_requirement.1 _ (by decide) (by decide),
   role_discriminated_requirement.2.1 _ (by decide) (by decide) (by decide),
   role_discriminated_requirement.2.2.1 _ (by decide) (by decide),
   role_discriminated_requirement.2.2.2 _ (by decide) (by decide)⟩

/-- C2: categorical consistency on the Facility (building) shape — with
building_type "academic" a non-null total_capacity fails validation and an
absent capacity succeeds; with building_type "residence_hall" a capacity of
-1 fails (minimum 0 violated) and a capacity of 0 succeeds. -/
theorem facility_capacity_consistency :
    (∀ (r : Record) (n : Int),
      lookupField r "building_type" = some (Value.vStr "academic") →
      lookupField r "total_capacity" = some (Value.vInt n) →
      (validate facilityDef r).map Prod.fst = ["FacilityCapacityConsistency"]) ∧
    (∀ r : Record,
      lookupField r "building_type" = some (Value.vStr "academic") →
      lookupField r "total_capacity" = none ∨
        lookupField r "total_capacity" = some Value.vNull →
      validate facilityDef r = []) ∧
    (∀ r : Record,
      lookupField r "building_type" = some (Value.vStr "residence_hall") →
      lookupField r "total_capacity" = some (Value.vInt (-1)) →
      (validate facilityDef r).map Prod.fst = ["FacilityCapacityConsistency"]) ∧
    (∀ r : Record,
      lookupField r "building_type" = some (Value.vStr "residence_hall") →
      lookupField r "total_capacity" = some (Value.vInt 0) →
      validate facilityDef r = []) := by
  refine ⟨fun r n h1 h2 => ?_, fun r h1 h2 => ?_, fun r h1 h2 => ?_, fun r h1 h2 => ?_⟩
  · simp [validate, facilityDef, facilityCapacityRule, evalRule, ruleIdOf, h1, h2]
  · rcases h2 with h2 | h2 <;>
      simp [validate, facilityDef, facilityCapacityRule, evalRule, ruleIdOf, h1, h2]
  · simp [validate, facilityDef, facilityCapacityRule, evalRule, ruleIdOf, h1, h2]
  · simp [validate, facilityDef, facilityCapacityRule, evalRule, ruleIdOf, h1, h2]

theorem facility_capacity_consistency_witness :
    (validate facilityDef
      [("building_type", Value.vStr "academic"),
       ("total_capacity", Value.vInt 200)]).map Prod.fst
      = ["FacilityCapacityConsistency"] ∧
    validate facilityDef [("building_type", Value.vStr "academic")] = [] ∧
    (validate facilityDef
      [("building_type", Value.vStr "residence_hall"),
       ("total_capacity", Value.vInt (-1))]).map Prod.fst
      = ["FacilityCapacityConsistency"] ∧
    validate facilityDef
      [("building_type", Value.vStr "residence_hall"),
       ("total_capacity", Value.vInt 0)] = [] :=
  ⟨facility_capacity_consistency.1 _ 200 (by decide) (by decide),
   facility_capacity_consistency.2.1 _ (by decide) (Or.inl (by decide)),
   facility_capacity_consistency.2.2.1 _ (by decide) (by decide),
   facility_capacity_consistency.2.2.2 _ (by decide) (by decide)⟩

/-- C8: absent-discriminant policy — a candidate Role record whose
discriminant affiliation_type is absent or bound to null fails validation,
citing the discriminated-requirement rule. -/
theorem role_absent_discriminant_rejected :
    ∀ r : Record,
      lookupField r "affiliation_type" = none ∨
        lookupField r "affiliation_type" = some Value.vNull →
      (validate roleDef r).map Prod.fst = ["RoleDiscriminatedRequirement"] := by
  intro r h
  rcases h with h | h <;>
    simp [validate, roleDef, roleDiscRule, evalRule, ruleIdOf, h]

theorem role_absent_discriminant_rejected_witness :
    (validate roleDef []).map Prod.fst = ["RoleDiscriminatedRequirement"] ∧
    (validate roleDef [("affiliation_type", Value.vNull)]).map Prod.fst
      = ["RoleDiscriminatedRequirement"] :=
  ⟨role_absent_discriminant_rejected [] (Or.inl (by decide)),
   role_absent_discriminant_rejected [("affiliation_type", Value.vNull)]
     (Or.inr (by decide))⟩

/-- C5: hierarchy edge legality — is_legal_edge with edge kind CONTAINS
holds exactly for the adjacent pairs of the five-level spatial hierarchy
(LocationArea→Facility, Facility→FloorOrSuite, FloorOrSuite→Room,
Room→RoomSpace) and for no other ordered pair; in particular level-skipping
(LocationArea→Room) and reversed direction (Room→LocationArea) are illegal. -/
theorem hierarchy_contains_legality :
    (∀ parent child : String,
      is_legal_edge parent child EdgeKind.CONTAINS = true ↔
        (parent = "LocationArea" ∧ child = "Facility") ∨
        (parent = "Facility" ∧ child = "FloorOrSuite") ∨
        (parent = "FloorOrSuite" ∧ child = "Room") ∨
        (parent = "Room" ∧ child = "RoomSpace")) ∧
    is_legal_edge "LocationArea" "Facility" EdgeKind.CONTAINS = true ∧
    is_legal_edge "LocationArea" "Room" EdgeKind.CONTAINS = false ∧
    is_legal_edge "Room" "LocationArea" EdgeKind.CONTAINS = false := by
  refine ⟨fun parent child => ?_, by decide, by decide, by decide⟩
  simp [is_legal_edge, containsPairs, List.contains, List.elem_eq_mem, Prod.ext_iff]

/-- C10: no categorical text field of any registered entity type enforces a
closed enumeration — no field's value kind is closed-enumeration-of-text,
and every text field (e.g. Role.affiliation_type, Agreement.contract_type)
structurally accepts every string value, including values outside the
parenthesized legal values of its description. -/
theorem no_closed_enumeration :
    (∀ td ∈ BU_HOUSING_ENTITY_TYPES, ∀ f ∈ td.2.fields,
      isClosedEnum f.kind = false) ∧
    (∀ td ∈ BU_HOUSING_ENTITY_TYPES, ∀ f ∈ td.2.fields,
      f.kind = ValueKind.text → ∀ s : String,
      decodeField [(f.name, Value.vStr s)] f = Except.ok (Value.vStr s)) := by
  constructor
  · decide
  · intro td _ f _ hk s
    have hv : lookupField [(f.name, Value.vStr s)] f.name = some (Value.vStr s) := by
      simp [lookupField]
    exact decodeField_ok_of_matching hv (by rw [hk]; rfl)

theorem no_closed_enumeration_witness :
    isClosedEnum (reqText "contract_type").kind = false ∧
    decodeField [("contract_type", Value.vStr "intergalactic")]
      (reqText "contract_type") = Except.ok (Value.vStr "intergalactic") :=
  ⟨no_closed_enumeration.1 ("Agreement", agreementDef) (by decide)
     (reqText "contract_type") (by decide),
   no_closed_enumeration.2 ("Agreement", agreementDef) (by decide)
     (reqText "contract_type") (by decide) rfl "intergalactic"⟩

end BUHousing
